import Mathlib

/-!
Verification of the iBigay backend core logic (main.py): the diversion
aggregator `user_stats`, the suggestion engine `_generate_tipid_suggestions`,
the haversine distance `_haversine_km` and the proximity search `list_items`.

Python dynamic values appearing in item documents are modelled by `PyVal`;
fields that may be absent from a document are `Option PyVal`.  Numbers are
modelled by `ℚ` (for the aggregator, which is exactly computable) and by `ℝ`
(for the trigonometric distance pipeline).  A Python exception is modelled by
`Option.none` in the result of a fallible function.
-/

/-- A dynamic Python value stored in an item document. -/
inductive PyVal where
  | none : PyVal
  | bool : Bool → PyVal
  | num : ℚ → PyVal
  | str : String → PyVal
deriving DecidableEq, Repr

/-- Python truthiness: `None`, `False`, `0` and `""` are falsy. -/
def pyTruthy : PyVal → Bool
  | PyVal.none => false
  | PyVal.bool b => b
  | PyVal.num q => decide (q ≠ 0)
  | PyVal.str s => decide (s ≠ "")

/-- Split a character list at the first dot, returning the part before it and,
when a dot is present, the part after it. -/
def splitDot : List Char → List Char × Option (List Char)
  | [] => ([], Option.none)
  | c :: cs =>
    if c = '.' then ([], Option.some cs)
    else
      let r := splitDot cs
      (c :: r.1, r.2)

/-- Value of a list of decimal digit characters. -/
def natOfDigits (l : List Char) : Nat :=
  l.foldl (fun n c => n * 10 + (c.toNat - 48)) 0

/-- Python `float(s)` on a string, modelled for plain decimal literals
(optional sign, digits, optional fractional part).  Returns `none` when the
string is not such a literal, which models `float` raising `ValueError`. -/
def pyFloatOfString (s : String) : Option ℚ :=
  let body : ℚ × List Char :=
    match s.toList with
    | '+' :: r => (1, r)
    | '-' :: r => (-1, r)
    | r => (1, r)
  let parts := splitDot body.2
  match parts.2 with
  | Option.none =>
    if parts.1 ≠ [] ∧ parts.1.all Char.isDigit then
      Option.some (body.1 * natOfDigits parts.1)
    else Option.none
  | Option.some f =>
    if (parts.1 ≠ [] ∨ f ≠ []) ∧ parts.1.all Char.isDigit ∧ f.all Char.isDigit then
      Option.some (body.1 * ((natOfDigits parts.1 : ℚ) + (natOfDigits f : ℚ) / 10 ^ f.length))
    else Option.none

/-- Python `str.lower()` (ASCII case mapping, which covers every string the
program compares against). -/
def pyLower (s : String) : String := String.mk (s.data.map Char.toLower)

/-- Python `str.strip()`: remove leading and trailing whitespace. -/
def pyStrip (s : String) : String :=
  String.mk (((s.data.dropWhile Char.isWhitespace).reverse.dropWhile Char.isWhitespace).reverse)

/-- Python `float(v)` on a dynamic value; `none` models a raised
`TypeError`/`ValueError`. -/
def pyFloat : PyVal → Option ℚ
  | PyVal.none => Option.none
  | PyVal.bool b => Option.some (if b then 1 else 0)
  | PyVal.num q => Option.some q
  | PyVal.str s => pyFloatOfString s

/-- An item document, restricted to the fields the core logic reads.  Each
field is `Option PyVal`: `none` models the key being absent from the document.
The id/timestamp normalisation done by `serialize_doc` does not touch these
fields, so it is the identity in this model. -/
structure Doc where
  location_lat : Option PyVal := Option.none
  location_lng : Option PyVal := Option.none
  available : Option PyVal := Option.none
  quantity : Option PyVal := Option.none
  unit : Option PyVal := Option.none
deriving DecidableEq, Repr

/-! ## Diversion aggregator (`user_stats`, main.py lines 261-285) -/

/-- `it.get("quantity") or 0`: an absent key yields Python `None`, and a falsy
value is replaced by the integer `0`. -/
def pyGetOr0 (v : Option PyVal) : PyVal :=
  let x := v.getD PyVal.none
  if pyTruthy x then x else PyVal.num 0

/-- `(it.get("unit") or "").lower()`: a falsy value is replaced by `""`; the
result is the lower-cased string, or `none` (an `AttributeError`) when the
value is a truthy non-string. -/
def pyUnitStr (v : Option PyVal) : Option String :=
  let x := v.getD PyVal.none
  let u := if pyTruthy x then x else PyVal.str ""
  match u with
  | PyVal.str s => Option.some (pyLower s)
  | _ => Option.none

/-- Kilogram contribution of one item in the `user_stats` loop; `none` models
an exception raised by `float(qty)` or `unit.lower()`. -/
def itemKg (d : Doc) : Option ℚ := do
  let u ← pyUnitStr d.unit
  let q ← pyFloat (pyGetOr0 d.quantity)
  pure
    (if u = "kg" ∨ u = "kilo" ∨ u = "kilogram" ∨ u = "kilograms" then q
     else if u = "g" ∨ u = "gram" ∨ u = "grams" then q / 1000
     else if u = "lb" ∨ u = "lbs" ∨ u = "pound" ∨ u = "pounds" then q * 0.453592
     else q * 0.2)

/-- Result shape of `user_stats`. -/
structure DiversionStats where
  items_shared : Nat
  people_helped : Nat
  kilograms_diverted : ℚ
deriving DecidableEq, Repr

/-- Python `round` to an integer: round half to even. -/
def roundHE (x : ℚ) : ℤ :=
  let fl := x.floor
  let fr := x - fl
  if fr < 1 / 2 then fl
  else if (1 : ℚ) / 2 < fr then fl + 1
  else if fl % 2 = 0 then fl else fl + 1

/-- Python `round(x, 2)`. -/
def pyRound2 (x : ℚ) : ℚ := (roundHE (100 * x) : ℚ) / 100

/-- One iteration of the `user_stats` loop body: add the item's kilogram
contribution and bump `people_helped` when `available is False`. -/
def statsStep (acc : ℚ × Nat) (d : Doc) : Option (ℚ × Nat) := do
  let c ← itemKg d
  pure (acc.1 + c, if d.available = Option.some (PyVal.bool false) then acc.2 + 1 else acc.2)

/-- The `/api/users/{user_id}/stats` aggregation loop over the user's item
documents (main.py lines 261-285).  `none` models an uncaught exception. -/
def user_stats (items : List Doc) : Option DiversionStats := do
  let acc ← items.foldlM statsStep ((0 : ℚ), (0 : Nat))
  pure
    { items_shared := items.length
      people_helped := acc.2
      kilograms_diverted := pyRound2 acc.1 }

/-! ## Spec-side aggregator definitions (for the refinement claims) -/

/-- The numeric value of a well-typed quantity field: 0 when absent/`None`. -/
def qtyVal (q : Option PyVal) : ℚ :=
  match q with | Option.some (PyVal.num x) => x | _ => 0

/-- The raw string of a well-typed unit field: "" when absent/`None`. -/
def unitStrRaw (u : Option PyVal) : String :=
  match u with | Option.some (PyVal.str s) => s | _ => ""

/-- Modelled from the spec (section 4.4) with unit matching case-insensitive
but NOT trimmed: per-item kilogram contribution, quantity 0 when absent. -/
def specItemKg (d : Doc) : ℚ :=
  let q : ℚ := qtyVal d.quantity
  let u := pyLower (unitStrRaw d.unit)
  if u = "kg" ∨ u = "kilo" ∨ u = "kilogram" ∨ u = "kilograms" then q
  else if u = "g" ∨ u = "gram" ∨ u = "grams" then q / 1000
  else if u = "lb" ∨ u = "lbs" ∨ u = "pound" ∨ u = "pounds" then q * 0.453592
  else q * 0.2

/-- Modelled from the spec (section 4.4) exactly as worded in claim C2: unit
matched case-insensitively AND trimmed. -/
def specItemKgTrimmed (d : Doc) : ℚ :=
  let q : ℚ := qtyVal d.quantity
  let u := pyLower (pyStrip (unitStrRaw d.unit))
  if u = "kg" ∨ u = "kilo" ∨ u = "kilogram" ∨ u = "kilograms" then q
  else if u = "g" ∨ u = "gram" ∨ u = "grams" then q / 1000
  else if u = "lb" ∨ u = "lbs" ∨ u = "pound" ∨ u = "pounds" then q * 0.453592
  else q * 0.2

/-- Modelled from the spec (section 4.4): the whole `DiversionStats` value. -/
def specStats (items : List Doc) : DiversionStats :=
  { items_shared := items.length
    people_helped :=
      (items.filter (fun d => d.available = Option.some (PyVal.bool false))).length
    kilograms_diverted := pyRound2 ((items.map specItemKg).sum) }

/-- A well-typed quantity field: absent, `None`, or a number. -/
def wfQty (q : Option PyVal) : Bool :=
  match q with
  | Option.none => true
  | Option.some PyVal.none => true
  | Option.some (PyVal.num _) => true
  | _ => false

/-- A well-typed unit field: absent, `None`, or a string. -/
def wfUnit (u : Option PyVal) : Bool :=
  match u with
  | Option.none => true
  | Option.some PyVal.none => true
  | Option.some (PyVal.str _) => true
  | _ => false

/-- Well-typed item for the aggregator: the shapes the spec data model allows. -/
def wfItem (d : Doc) : Bool := wfQty d.quantity && wfUnit d.unit

/-- Item quantity is non-negative when it is a number. -/
def qtyNonneg (d : Doc) : Bool := decide (0 ≤ qtyVal d.quantity)

/-! ## Suggestion engine (`_generate_tipid_suggestions`, main.py lines 184-229) -/

/-- Whether `ndl` is a prefix of `hay` (character lists). -/
def matchHead : List Char → List Char → Bool
  | [], _ => true
  | _ :: _, [] => false
  | a :: as, b :: bs => a == b && matchHead as bs

/-- Whether `ndl` occurs as a contiguous substring of `hay`. -/
def hasSubstr (ndl : List Char) : List Char → Bool
  | [] => matchHead ndl []
  | b :: bs => matchHead ndl (b :: bs) || hasSubstr ndl bs

/-- Python `needle in hay` on strings. -/
def pyIn (needle hay : String) : Bool := hasSubstr needle.data hay.data

/-- The `add_tip` / `add_recipe` closures: append unless already present. -/
def addUnique (x : String) (l : List String) : List String :=
  if x ∈ l then l else l ++ [x]

/-- Result of the suggestion engine.  The constant mascot identity block also
returned by the handler is independent of the input and carries no logic, so
it is not modelled. -/
structure TipidSuggestions where
  tips : List String
  recipes : List String
deriving DecidableEq, Repr

/-- The lower-cased concatenation `f"{title} {description or ''}"` that keyword
rules are matched against. -/
def tipidText (title : String) (description : Option String) : String :=
  pyLower (title ++ " " ++ description.getD "")

/-- The rule engine `_generate_tipid_suggestions` (main.py lines 184-229),
with the sequential mutation of the `tips`/`recipes` accumulators written as
successive immutable stages. -/
def _generate_tipid_suggestions (title : String) (description category : Option String) :
    TipidSuggestions :=
  let text := tipidText title description
  let tips0 : List String := []
  let recipes0 : List String := []
  let tips1 :=
    if pyIn "banana" text then
      addUnique "Freeze overripe bananas for smoothies or baking." tips0
    else tips0
  let recipes1 :=
    if pyIn "banana" text then
      addUnique "Maruya / Banana Fritters"
        (addUnique "Smoothie: saging + gatas + yelo"
          (addUnique "Banana Bread na Pang-tipid" recipes0))
    else recipes0
  let tips2 :=
    if pyIn "bread" text || pyIn "tinapay" text then
      addUnique "Gawing breadcrumbs o croutons ang matigas na tinapay." tips1
    else tips1
  let recipes2 :=
    if pyIn "bread" text || pyIn "tinapay" text then
      addUnique "Bread Pudding sa Kaldero"
        (addUnique "French Toast / Toasted Bread with itlog" recipes1)
    else recipes1
  let tips3 :=
    if pyIn "rice" text || pyIn "kanin" text then
      addUnique "Gawing sinangag ang natirang kanin—perfect for breakfast!" tips2
    else tips2
  let recipes3 :=
    if pyIn "rice" text || pyIn "kanin" text then
      addUnique "Arroz Caldo kung sabaw ang hanap"
        (addUnique "Sinangag with Garlic at gulay" recipes2)
    else recipes2
  let tips4 :=
    if pyIn "vegetable" text || pyIn "gulay" text || pyIn "lettuce" text || pyIn "carrot" text then
      addUnique "Gamitin sa stir-fry o soup ang nalalantang gulay." tips3
    else tips3
  let recipes4 :=
    if pyIn "vegetable" text || pyIn "gulay" text || pyIn "lettuce" text || pyIn "carrot" text then
      addUnique "Pickled Gulay para tumagal"
        (addUnique "Gulay Stir-fry na may toyo at bawang" recipes3)
    else recipes3
  let tips5 :=
    if category = Option.some "household" then
      addUnique "Donate locally para hindi mapunta sa landfill."
        (addUnique "Repurpose jars/containers for storage." tips4)
    else tips4
  let tips6 :=
    if tips5 = [] ∧ recipes4 = [] then
      addUnique "Check your fridge first—baka pwedeng i-recipe na! 😄" tips5
    else tips5
  let recipes5 :=
    if tips5 = [] ∧ recipes4 = [] then
      addUnique "Fried Rice ng Bahay" recipes4
    else recipes4
  { tips := tips6, recipes := recipes5 }

/-- Some text-keyword rule of the engine fires on this title/description. -/
def tipidKeywordFired (title : String) (description : Option String) : Prop :=
  let text := tipidText title description
  pyIn "banana" text = true ∨ pyIn "bread" text = true ∨ pyIn "tinapay" text = true ∨
    pyIn "rice" text = true ∨ pyIn "kanin" text = true ∨ pyIn "vegetable" text = true ∨
    pyIn "gulay" text = true ∨ pyIn "lettuce" text = true ∨ pyIn "carrot" text = true

instance (t : String) (d : Option String) : Decidable (tipidKeywordFired t d) := by
  unfold tipidKeywordFired
  infer_instance

/-! ## Geo distance and proximity search (`_haversine_km` and `list_items`,
main.py lines 154-179) -/

/-- `d_ser.get("available", True)` under Python truthiness: an item missing
the flag counts as available. -/
def availOf (d : Doc) : Bool :=
  match d.available with
  | Option.none => true
  | Option.some v => pyTruthy v

/-- `float(d_ser.get("location_lat"))`: an absent key gives Python `None`,
whose conversion raises (`none`). -/
def pyFloatField (v : Option PyVal) : Option ℚ := pyFloat (v.getD PyVal.none)

noncomputable section

/-- `math.radians`. -/
def radians (x : ℝ) : ℝ := x * (Real.pi / 180)

/-- `math.atan2` on the reals. -/
def atan2 (y x : ℝ) : ℝ :=
  if 0 < x then Real.arctan (y / x)
  else if x < 0 then
    (if 0 ≤ y then Real.arctan (y / x) + Real.pi else Real.arctan (y / x) - Real.pi)
  else if 0 < y then Real.pi / 2
  else if y < 0 then -(Real.pi / 2)
  else 0

/-- The haversine great-circle distance on a sphere of radius 6371 km
(main.py lines 154-161). -/
def _haversine_km (lat1 lon1 lat2 lon2 : ℝ) : ℝ :=
  let dlat := radians (lat2 - lat1)
  let dlon := radians (lon2 - lon1)
  let a := Real.sin (dlat / 2) ^ 2 +
    Real.cos (radians lat1) * Real.cos (radians lat2) * Real.sin (dlon / 2) ^ 2
  let c := 2 * atan2 (Real.sqrt a) (Real.sqrt (1 - a))
  6371.0 * c

/-- Python `round` to an integer on the reals: round half to even. -/
def roundHEReal (x : ℝ) : ℤ :=
  if Int.fract x < 1 / 2 then ⌊x⌋
  else if (1 : ℝ) / 2 < Int.fract x then ⌊x⌋ + 1
  else if ⌊x⌋ % 2 = 0 then ⌊x⌋ else ⌊x⌋ + 1

/-- Python `round(x, 2)` on the reals. -/
def pyRound2Real (x : ℝ) : ℝ := (roundHEReal (100 * x) : ℝ) / 100

/-- Distance assigned to one candidate item: the haversine distance from the
center when both coordinates convert to numbers, else the 9999 km sentinel
(the `try`/`except` at main.py lines 170-173). -/
def distOf (lat lng : ℝ) (d : Doc) : ℝ :=
  match pyFloatField d.location_lat, pyFloatField d.location_lng with
  | Option.some a, Option.some b => _haversine_km lat lng (a : ℝ) (b : ℝ)
  | _, _ => 9999

/-- The serialized item together with its `distance_km` field. -/
def annotate (lat lng : ℝ) (d : Doc) : Doc × ℝ := (d, pyRound2Real (distOf lat lng d))

/-- Comparison used by `enriched.sort(key=lambda x: x.get("distance_km", 9999))`:
`distance_km` is always present on enriched items, so the key is the second
component. -/
def byDist (a b : Doc × ℝ) : Prop := a.2 ≤ b.2

instance : DecidableRel byDist := fun a b => Real.decidableLE a.2 b.2

instance : IsTotal (Doc × ℝ) byDist := ⟨fun a b => le_total a.2 b.2⟩

instance : IsTrans (Doc × ℝ) byDist := ⟨fun _ _ _ h1 h2 => le_trans h1 h2⟩

/-- The `/api/items` proximity search (main.py lines 164-179): annotate each
document with its rounded distance, keep it when the unrounded distance is
within the radius and the item is available, then stable-sort by the rounded
`distance_km` (Python `list.sort` is stable; the stable insertion sort has
the same graph). -/
def list_items (lat lng radius_km : ℝ) (docs : List Doc) : List (Doc × ℝ) :=
  let enriched := docs.foldl
    (fun acc d =>
      let dist := distOf lat lng d
      if dist ≤ radius_km ∧ availOf d = true then acc ++ [(d, pyRound2Real dist)] else acc)
    []
  enriched.insertionSort byDist

/-- Modelled from the spec (section 4.2): retain exactly the candidates whose
assigned distance is within the radius and that are available, annotate with
the rounded distance, and stable-sort ascending by `distance_km`. -/
def searchSpec (lat lng radius_km : ℝ) (docs : List Doc) : List (Doc × ℝ) :=
  ((docs.filter (fun d => decide (distOf lat lng d ≤ radius_km) && availOf d)).map
    (annotate lat lng)).insertionSort byDist

end

/-! ## Concrete documents and item lists used in the claim instances -/

/-- An item with a truthy non-numeric quantity string: `float("abc")` raises. -/
def cNonNumericQtyDoc : Doc :=
  { quantity := Option.some (PyVal.str "abc"), unit := Option.some (PyVal.str "kg") }

/-- An item whose unit carries surrounding whitespace. -/
def cPaddedUnitDoc : Doc :=
  { quantity := Option.some (PyVal.num 1), unit := Option.some (PyVal.str " kg ") }

/-- The two-item list of the spec example for the diversion aggregator. -/
def cAggExampleItems : List Doc :=
  [{ quantity := Option.some (PyVal.num 2), unit := Option.some (PyVal.str "kg"),
     available := Option.some (PyVal.bool true) },
   { quantity := Option.some (PyVal.num 500), unit := Option.some (PyVal.str "g"),
     available := Option.some (PyVal.bool false) }]

/-- An item with a negative quantity. -/
def cNegativeQtyDoc : Doc :=
  { quantity := Option.some (PyVal.num (-5)), unit := Option.some (PyVal.str "kg") }

/-- An available item located exactly at the origin. -/
def cOriginDoc : Doc :=
  { location_lat := Option.some (PyVal.num 0), location_lng := Option.some (PyVal.num 0) }

/-- An item whose latitude cannot be parsed as a number. -/
def cBadLatDoc : Doc :=
  { location_lat := Option.some (PyVal.str "zero"), location_lng := Option.some (PyVal.num 10) }

/-! ## Aggregator lemmas -/

lemma ratFloor_eq_floor (x : ℚ) : x.floor = ⌊x⌋ := rfl

lemma pyUnitStr_wf (u : Option PyVal) (h : wfUnit u = true) :
    pyUnitStr u = Option.some (pyLower (unitStrRaw u)) := by
  rcases u with _ | v
  · simp [pyUnitStr, pyTruthy, unitStrRaw]
  · rcases v with _ | b | x | s
    · simp [pyUnitStr, pyTruthy, unitStrRaw]
    · simp [wfUnit] at h
    · simp [wfUnit] at h
    · by_cases hs : s = "" <;> simp [pyUnitStr, pyTruthy, unitStrRaw, hs]

lemma pyFloat_qty_wf (q : Option PyVal) (h : wfQty q = true) :
    pyFloat (pyGetOr0 q) = Option.some (qtyVal q) := by
  rcases q with _ | v
  · simp [pyGetOr0, pyFloat, pyTruthy, qtyVal]
  · rcases v with _ | b | x | s
    · simp [pyGetOr0, pyFloat, pyTruthy, qtyVal]
    · simp [wfQty] at h
    · by_cases hx : x = 0 <;> simp [pyGetOr0, pyFloat, pyTruthy, qtyVal, hx]
    · simp [wfQty] at h

lemma itemKg_wf (d : Doc) (h : wfItem d = true) : itemKg d = Option.some (specItemKg d) := by
  rw [wfItem, Bool.and_eq_true] at h
  rw [itemKg, pyUnitStr_wf d.unit h.2, pyFloat_qty_wf d.quantity h.1]
  rfl

lemma foldlM_statsStep (items : List Doc) (h : ∀ d ∈ items, wfItem d = true) :
    ∀ acc : ℚ × Nat,
      items.foldlM statsStep acc =
        Option.some
          (acc.1 + (items.map specItemKg).sum,
           acc.2 + (items.filter
             (fun d => d.available = Option.some (PyVal.bool false))).length) := by
  induction items with
  | nil => intro acc; simp
  | cons d items ih =>
    intro acc
    have hd : wfItem d = true := h d (List.mem_cons_self d items)
    have hrest : ∀ x ∈ items, wfItem x = true := fun x hx => h x (List.mem_cons_of_mem d hx)
    have hstep : statsStep acc d =
        Option.some (acc.1 + specItemKg d,
          if d.available = Option.some (PyVal.bool false) then acc.2 + 1 else acc.2) := by
      simp [statsStep, itemKg_wf d hd]
    rw [List.foldlM_cons, hstep]
    rw [show (Option.some (acc.1 + specItemKg d,
          if d.available = Option.some (PyVal.bool false) then acc.2 + 1 else acc.2) >>=
          items.foldlM statsStep) =
        items.foldlM statsStep (acc.1 + specItemKg d,
          if d.available = Option.some (PyVal.bool false) then acc.2 + 1 else acc.2) from rfl]
    rw [ih hrest]
    simp only [List.map_cons, List.sum_cons, List.filter_cons, Option.some.injEq, Prod.mk.injEq,
      decide_eq_true_eq]
    split_ifs with hav
    · exact ⟨by ring, by simp only [List.length_cons]; omega⟩
    · exact ⟨by ring, rfl⟩

lemma user_stats_eq_specStats (items : List Doc) (h : ∀ d ∈ items, wfItem d = true) :
    user_stats items = Option.some (specStats items) := by
  rw [user_stats, foldlM_statsStep items h]
  simp [specStats]

lemma roundHE_nonneg (x : ℚ) (hx : 0 ≤ x) : 0 ≤ roundHE x := by
  have h0 : (0 : ℤ) ≤ ⌊x⌋ := Int.floor_nonneg.mpr hx
  simp only [roundHE, ratFloor_eq_floor]
  split_ifs <;> omega

lemma pyRound2_nonneg (x : ℚ) (hx : 0 ≤ x) : 0 ≤ pyRound2 x := by
  have h := roundHE_nonneg (100 * x) (by positivity)
  have h2 : (0 : ℚ) ≤ (roundHE (100 * x) : ℚ) := by exact_mod_cast h
  exact div_nonneg h2 (by norm_num)

lemma specItemKg_nonneg (d : Doc) (h : qtyNonneg d = true) : 0 ≤ specItemKg d := by
  have hq : (0 : ℚ) ≤ qtyVal d.quantity := by
    rw [qtyNonneg, decide_eq_true_eq] at h
    exact h
  simp only [specItemKg]
  split_ifs
  · exact hq
  · exact div_nonneg hq (by norm_num)
  · exact mul_nonneg hq (by norm_num)
  · exact mul_nonneg hq (by norm_num)

/-! ## Geo lemmas -/

lemma atan2_nonneg {y x : ℝ} (hy : 0 ≤ y) (hx : 0 ≤ x) : 0 ≤ atan2 y x := by
  unfold atan2
  split_ifs with h1 h2 h3 h4
  · have hq : (0 : ℝ) ≤ y / x := div_nonneg hy (le_of_lt h1)
    calc (0 : ℝ) = Real.arctan 0 := Real.arctan_zero.symm
    _ ≤ Real.arctan (y / x) := Real.arctan_strictMono.monotone hq
  · linarith
  · positivity
  · linarith
  · exact le_refl _

lemma haversine_nonneg (lat1 lon1 lat2 lon2 : ℝ) : 0 ≤ _haversine_km lat1 lon1 lat2 lon2 := by
  simp only [_haversine_km]
  apply mul_nonneg (by norm_num)
  apply mul_nonneg (by norm_num)
  exact atan2_nonneg (Real.sqrt_nonneg _) (Real.sqrt_nonneg _)

lemma haversine_self (lat lon : ℝ) : _haversine_km lat lon lat lon = 0 := by
  simp only [_haversine_km, sub_self]
  norm_num [radians, atan2, Real.sqrt_one, Real.arctan_zero]

lemma sin_sq_radians_neg (u v : ℝ) :
    Real.sin (radians (u - v) / 2) ^ 2 = Real.sin (radians (v - u) / 2) ^ 2 := by
  rw [show radians (u - v) = -(radians (v - u)) by unfold radians; ring, neg_div,
    Real.sin_neg, neg_sq]

lemma haversine_symm (lat1 lon1 lat2 lon2 : ℝ) :
    _haversine_km lat1 lon1 lat2 lon2 = _haversine_km lat2 lon2 lat1 lon1 := by
  simp only [_haversine_km]
  rw [sin_sq_radians_neg lat2 lat1, sin_sq_radians_neg lon2 lon1,
    mul_comm (Real.cos (radians lat1)) (Real.cos (radians lat2))]

lemma distOf_nonneg (lat lng : ℝ) (d : Doc) : 0 ≤ distOf lat lng d := by
  unfold distOf
  rcases pyFloatField d.location_lat with _ | a <;>
    rcases pyFloatField d.location_lng with _ | b
  · norm_num
  · norm_num
  · norm_num
  · exact haversine_nonneg _ _ _ _

lemma roundHEReal_intCast (n : ℤ) : roundHEReal (n : ℝ) = n := by
  unfold roundHEReal
  rw [Int.fract_intCast, Int.floor_intCast]
  norm_num

lemma pyRound2Real_zero : pyRound2Real 0 = 0 := by
  unfold pyRound2Real
  rw [show (100 : ℝ) * 0 = ((0 : ℤ) : ℝ) by norm_num, roundHEReal_intCast]
  norm_num

lemma pyRound2Real_9999 : pyRound2Real 9999 = 9999 := by
  unfold pyRound2Real
  rw [show (100 : ℝ) * 9999 = ((999900 : ℤ) : ℝ) by norm_num, roundHEReal_intCast]
  norm_num

lemma list_items_enriched (lat lng r : ℝ) (docs : List Doc) :
    ∀ acc : List (Doc × ℝ),
      docs.foldl (fun acc d =>
        let dist := distOf lat lng d
        if dist ≤ r ∧ availOf d = true then acc ++ [(d, pyRound2Real dist)] else acc) acc =
      acc ++ (docs.filter (fun d => decide (distOf lat lng d ≤ r) && availOf d)).map
        (annotate lat lng) := by
  induction docs with
  | nil => intro acc; simp
  | cons d docs ih =>
    intro acc
    rw [List.foldl_cons]
    by_cases h1 : distOf lat lng d ≤ r <;> by_cases h2 : availOf d = true <;>
      simp [h1, h2, List.filter_cons, annotate, ih]

lemma list_items_eq_searchSpec (lat lng r : ℝ) (docs : List Doc) :
    list_items lat lng r docs = searchSpec lat lng r docs := by
  simp only [list_items, searchSpec]
  rw [list_items_enriched lat lng r docs []]
  simp

/-! ## Stability of the sort -/

lemma filter_orderedInsert_key (k : ℝ) (a : Doc × ℝ) :
    ∀ l : List (Doc × ℝ),
      (l.orderedInsert byDist a).filter (fun x => decide (x.2 = k)) =
        if a.2 = k then a :: l.filter (fun x => decide (x.2 = k))
        else l.filter (fun x => decide (x.2 = k)) := by
  intro l
  induction l with
  | nil =>
    simp only [List.orderedInsert, List.filter]
    by_cases ha : a.2 = k <;> simp [ha]
  | cons b bs ih =>
    simp only [List.orderedInsert]
    by_cases hab : byDist a b
    · rw [if_pos hab]
      by_cases ha : a.2 = k <;> simp [ha, List.filter_cons]
    · rw [if_neg hab]
      have hlt : b.2 < a.2 := lt_of_not_le hab
      by_cases ha : a.2 = k
      · have hb : ¬ b.2 = k := by rw [← ha]; exact ne_of_lt hlt
        simp [List.filter_cons, ha, hb, ih]
      · by_cases hb : b.2 = k <;> simp [List.filter_cons, ha, hb, ih]

lemma filter_insertionSort_key (k : ℝ) :
    ∀ l : List (Doc × ℝ),
      (l.insertionSort byDist).filter (fun x => decide (x.2 = k)) =
        l.filter (fun x => decide (x.2 = k)) := by
  intro l
  induction l with
  | nil => simp
  | cons b bs ih =>
    simp only [List.insertionSort]
    rw [filter_orderedInsert_key k b (bs.insertionSort byDist)]
    by_cases hb : b.2 = k <;> simp [hb, List.filter_cons, ih]

/-! ## Membership and degenerate-radius lemmas for the search -/

lemma mem_list_items_iff (lat lng r : ℝ) (docs : List Doc) (x : Doc × ℝ) :
    x ∈ list_items lat lng r docs ↔
      ∃ d ∈ docs, (distOf lat lng d ≤ r ∧ availOf d = true) ∧ x = annotate lat lng d := by
  rw [list_items_eq_searchSpec]
  unfold searchSpec
  rw [(List.perm_insertionSort byDist _).mem_iff]
  simp only [List.mem_map, List.mem_filter, Bool.and_eq_true, decide_eq_true_eq]
  constructor
  · rintro ⟨d, ⟨hd, h1, h2⟩, rfl⟩
    exact ⟨d, hd, ⟨h1, h2⟩, rfl⟩
  · rintro ⟨d, hd, ⟨h1, h2⟩, rfl⟩
    exact ⟨d, ⟨hd, h1, h2⟩, rfl⟩

lemma list_items_radius_neg (lat lng r : ℝ) (docs : List Doc) (hr : r < 0) :
    list_items lat lng r docs = [] := by
  rw [list_items_eq_searchSpec]
  unfold searchSpec
  have hnil : docs.filter (fun d => decide (distOf lat lng d ≤ r) && availOf d) = [] := by
    apply List.filter_eq_nil_iff.mpr
    intro d _
    have h0 := distOf_nonneg lat lng d
    simp only [Bool.and_eq_true, decide_eq_true_eq, not_and]
    intro hle
    linarith
  rw [hnil]
  simp

lemma list_items_radius_zero (lat lng : ℝ) (docs : List Doc) :
    list_items lat lng 0 docs =
      (docs.filter (fun d => decide (distOf lat lng d = 0) && availOf d)).map
        (annotate lat lng) := by
  rw [list_items_eq_searchSpec]
  unfold searchSpec
  have hfe : docs.filter (fun d => decide (distOf lat lng d ≤ 0) && availOf d) =
      docs.filter (fun d => decide (distOf lat lng d = 0) && availOf d) := by
    apply List.filter_congr
    intro d _
    have h0 : distOf lat lng d ≤ 0 ↔ distOf lat lng d = 0 :=
      ⟨fun h => le_antisymm h (distOf_nonneg lat lng d), fun h => h ▸ le_refl _⟩
    by_cases hd : distOf lat lng d = 0 <;> by_cases ha : availOf d = true <;>
      simp [hd, ha, h0]
  rw [hfe]
  apply List.Sorted.insertionSort_eq
  have hkey : ∀ x ∈ (docs.filter
      (fun d => decide (distOf lat lng d = 0) && availOf d)).map (annotate lat lng),
      x.2 = 0 := by
    intro x hx
    rcases List.mem_map.mp hx with ⟨d, hd, rfl⟩
    rcases List.mem_filter.mp hd with ⟨-, hcond⟩
    rcases (Bool.and_eq_true _ _).mp hcond with ⟨h0, -⟩
    have h0' : distOf lat lng d = 0 := of_decide_eq_true h0
    simp [annotate, h0', pyRound2Real_zero]
  apply List.pairwise_of_forall_mem_list
  intro a ha b hb
  unfold byDist
  rw [hkey a ha, hkey b hb]

/-! ## Claim theorems -/

/-- C1: the claim says `user_stats` never raises on a malformed (non-numeric)
quantity and gives that item a zero contribution.  The code has no handler
around `float(qty)`, so a truthy non-numeric quantity string raises a
`ValueError` and aborts the whole aggregation: on the one-item list whose
quantity is the string "abc" the embedded loop produces an exception
(`Option.none`) instead of a result. -/
theorem user_stats_raises_on_nonnumeric_quantity :
    user_stats [cNonNumericQtyDoc] = Option.none := by
  decide

/-- C2 counterexample: the claim says the unit string is matched
case-insensitively AND trimmed.  The code only lower-cases (`.lower()`,
no `.strip()`), so quantity 1 with unit " kg " contributes 0.2 kg (the
per-piece default), while the claim's trimmed matching would give 1 kg. -/
theorem user_stats_unit_not_trimmed_counterexample :
    user_stats [cPaddedUnitDoc] = Option.some ⟨1, 0, 1 / 5⟩ ∧
    specItemKgTrimmed cPaddedUnitDoc = 1 ∧
    ((1 : ℚ) / 5 ≠ 1) := by
  refine ⟨?_, ?_, by norm_num⟩
  · have h : pyLower " kg " = " kg " := by decide
    simp [user_stats, cPaddedUnitDoc, statsStep, itemKg, pyUnitStr, pyFloat, pyGetOr0,
      pyTruthy, h]
    norm_num [pyRound2, roundHE, ratFloor_eq_floor]
  · have h : pyLower (pyStrip " kg ") = "kg" := by decide
    simp [specItemKgTrimmed, cPaddedUnitDoc, qtyVal, unitStrRaw, h]

/-- C2 amended: for every list of well-typed items (quantity absent/None/number,
unit absent/None/string), `user_stats` returns `items_shared` = item count,
`people_helped` = count of items whose available flag is exactly `False`, and
`kilograms_diverted` = the 2-decimal rounding of the summed per-item conversion
with the unit lower-cased but NOT trimmed (kg/kilo/kilogram(s) ×1, g/gram(s)
÷1000, lb(s)/pound(s) ×0.453592, anything else ×0.2, quantity 0 when absent),
exactly as `specStats` states. -/
theorem user_stats_matches_spec_untrimmed (items : List Doc)
    (h : ∀ d ∈ items, wfItem d = true) :
    user_stats items = Option.some (specStats items) :=
  user_stats_eq_specStats items h

/-- C2 witness: on the spec example list the theorem applies and yields
items_shared = 2, people_helped = 1, kilograms_diverted = 2.5. -/
theorem user_stats_matches_spec_untrimmed_witness :
    user_stats cAggExampleItems = Option.some ⟨2, 1, 5 / 2⟩ := by
  have h := user_stats_matches_spec_untrimmed cAggExampleItems (by decide)
  rw [h]
  have hkg : pyLower "kg" = "kg" := by decide
  have hg : pyLower "g" = "g" := by decide
  simp [specStats, cAggExampleItems, specItemKg, qtyVal, unitStrRaw, hkg, hg]
  norm_num [pyRound2, roundHE, ratFloor_eq_floor]

/-- C4 counterexample: an item with quantity -5 and unit "kg" makes
`kilograms_diverted` equal to -5 < 0, so the field is not non-negative for
every item list. -/
theorem kilograms_diverted_negative_counterexample :
    user_stats [cNegativeQtyDoc] = Option.some ⟨1, 0, -5⟩ ∧ ((-5 : ℚ) < 0) := by
  refine ⟨?_, by norm_num⟩
  have hkg : pyLower "kg" = "kg" := by decide
  simp [user_stats, cNegativeQtyDoc, statsStep, itemKg, pyUnitStr, pyFloat, pyGetOr0,
    pyTruthy, hkg]
  norm_num [pyRound2, roundHE, ratFloor_eq_floor]

/-- C4 amended: for every list of well-typed items whose numeric quantities are
all non-negative, `user_stats` succeeds and its `kilograms_diverted` field is
non-negative. -/
theorem kilograms_diverted_nonneg_for_nonneg_quantities (items : List Doc)
    (h : ∀ d ∈ items, wfItem d = true ∧ qtyNonneg d = true) :
    ∃ s, user_stats items = Option.some s ∧ 0 ≤ s.kilograms_diverted := by
  refine ⟨specStats items, user_stats_eq_specStats items (fun d hd => (h d hd).1), ?_⟩
  apply pyRound2_nonneg
  apply List.sum_nonneg
  intro x hx
  rcases List.mem_map.mp hx with ⟨d, hd, rfl⟩
  exact specItemKg_nonneg d (h d hd).2

/-- C4 witness: an item with quantity 3 and no unit gives a non-negative
(indeed 0.6 kg) diverted mass. -/
theorem kilograms_diverted_nonneg_for_nonneg_quantities_witness :
    ∃ s, user_stats [{ quantity := Option.some (PyVal.num 3) }] = Option.some s ∧
      0 ≤ s.kilograms_diverted :=
  kilograms_diverted_nonneg_for_nonneg_quantities _ (by decide)

/-- C3 counterexample: the claim says that with radius_km ≤ 0 an available item
at distance exactly 0 is returned.  With radius_km = -1 the origin item is at
distance 0 from the center and available, yet the search returns the empty
list, because `0 <= -1` fails. -/
theorem list_items_negative_radius_counterexample :
    distOf 0 0 cOriginDoc = 0 ∧ availOf cOriginDoc = true ∧
    list_items 0 0 (-1) [cOriginDoc] = [] := by
  refine ⟨?_, by decide, list_items_radius_neg 0 0 (-1) [cOriginDoc] (by norm_num)⟩
  have h1 : pyFloatField cOriginDoc.location_lat = Option.some 0 := by decide
  have h2 : pyFloatField cOriginDoc.location_lng = Option.some 0 := by decide
  simp [distOf, h1, h2, haversine_self]

/-- C3 amended: when radius_km is strictly negative the search returns the
empty list (every assigned distance is non-negative); when radius_km equals 0
it returns exactly the available items whose assigned distance is exactly 0,
annotated, in their original input order. -/
theorem list_items_nonpositive_radius (lat lng r : ℝ) (docs : List Doc) (hr : r ≤ 0) :
    (r < 0 → list_items lat lng r docs = []) ∧
    (r = 0 → list_items lat lng r docs =
      (docs.filter (fun d => decide (distOf lat lng d = 0) && availOf d)).map
        (annotate lat lng)) := by
  constructor
  · intro h
    exact list_items_radius_neg lat lng r docs h
  · intro h
    subst h
    exact list_items_radius_zero lat lng docs

/-- C3 witness: at radius -1 with the origin item as the only candidate the
amended theorem applies and gives the empty result. -/
theorem list_items_nonpositive_radius_witness :
    list_items 0 0 (-1) [cOriginDoc] = [] :=
  (list_items_nonpositive_radius 0 0 (-1) [cOriginDoc] (by norm_num)).1 (by norm_num)

/-- C5: an item whose coordinates fail to convert gets the sentinel distance
9999, its output `distance_km` is 9999.0 (rounding fixes it), it is excluded
from the result whenever radius_km < 9999, and it is included when
radius_km ≥ 9999 and it is available.  The embedded `try`/`except` is a pure
branch, so no exception escapes the search. -/
theorem list_items_sentinel_distance (lat lng r : ℝ) (docs : List Doc) (d : Doc)
    (hd : d ∈ docs)
    (hbad : pyFloatField d.location_lat = Option.none ∨
            pyFloatField d.location_lng = Option.none) :
    distOf lat lng d = 9999 ∧
    (annotate lat lng d).2 = 9999 ∧
    (r < 9999 → annotate lat lng d ∉ list_items lat lng r docs) ∧
    (9999 ≤ r → availOf d = true → annotate lat lng d ∈ list_items lat lng r docs) := by
  have hdist : distOf lat lng d = 9999 := by
    rcases hbad with h | h
    · simp [distOf, h]
    · cases h1 : pyFloatField d.location_lat <;> simp [distOf, h, h1]
  have hann : (annotate lat lng d).2 = 9999 := by
    simp [annotate, hdist, pyRound2Real_9999]
  refine ⟨hdist, hann, ?_, ?_⟩
  · intro hr hmem
    rcases (mem_list_items_iff lat lng r docs _).mp hmem with ⟨e, he, ⟨hle, hav⟩, heq⟩
    have hde : d = e := congrArg Prod.fst heq
    rw [← hde, hdist] at hle
    linarith
  · intro hr hav
    exact (mem_list_items_iff lat lng r docs _).mpr
      ⟨d, hd, ⟨by rw [hdist]; exact hr, hav⟩, rfl⟩

/-- C5 witness: the item with unparseable latitude gets distance 9999 and is
excluded at radius 5. -/
theorem list_items_sentinel_distance_witness :
    distOf 0 0 cBadLatDoc = 9999 ∧
    annotate 0 0 cBadLatDoc ∉ list_items 0 0 5 [cBadLatDoc] := by
  have h := list_items_sentinel_distance 0 0 5 [cBadLatDoc] cBadLatDoc
    (List.mem_singleton.mpr rfl) (Or.inl (by decide))
  exact ⟨h.1, h.2.2.1 (by norm_num)⟩

/-- C6: the search equals the spec description `searchSpec` (retain exactly the
candidates with assigned distance within the radius that are available,
annotate with the rounded distance), its output is sorted ascending by the
rounded `distance_km`, and within any fixed distance value the output order is
the original input order (filtering the sorted output by a key equals
filtering the retained-in-input-order list by that key). -/
theorem list_items_filter_sort_correct (lat lng r : ℝ) (docs : List Doc) :
    list_items lat lng r docs = searchSpec lat lng r docs ∧
    List.Sorted byDist (list_items lat lng r docs) ∧
    ∀ k : ℝ, (list_items lat lng r docs).filter (fun x => decide (x.2 = k)) =
      ((docs.filter (fun d => decide (distOf lat lng d ≤ r) && availOf d)).map
        (annotate lat lng)).filter (fun x => decide (x.2 = k)) := by
  refine ⟨list_items_eq_searchSpec lat lng r docs, ?_, ?_⟩
  · rw [list_items_eq_searchSpec]
    exact List.sorted_insertionSort byDist _
  · intro k
    rw [list_items_eq_searchSpec]
    exact filter_insertionSort_key k _

/-- C9: over the whole ±90 / ±180 degree domain the haversine distance is a
well-defined real number that is non-negative, symmetric (exactly, hence
within the 1e-6 km tolerance), and zero (hence within 1e-6 km of 0) for
coinciding endpoints. -/
theorem haversine_nonneg_symm_self (lat1 lon1 lat2 lon2 : ℝ)
    (_h1a : -90 ≤ lat1) (_h1b : lat1 ≤ 90) (_h2a : -180 ≤ lon1) (_h2b : lon1 ≤ 180)
    (_h3a : -90 ≤ lat2) (_h3b : lat2 ≤ 90) (_h4a : -180 ≤ lon2) (_h4b : lon2 ≤ 180) :
    0 ≤ _haversine_km lat1 lon1 lat2 lon2 ∧
    |_haversine_km lat1 lon1 lat2 lon2 - _haversine_km lat2 lon2 lat1 lon1| ≤ 1 / 1000000 ∧
    |_haversine_km lat1 lon1 lat1 lon1| ≤ 1 / 1000000 := by
  refine ⟨haversine_nonneg lat1 lon1 lat2 lon2, ?_, ?_⟩
  · rw [haversine_symm lat1 lon1 lat2 lon2, sub_self, abs_zero]
    norm_num
  · rw [haversine_self, abs_zero]
    norm_num

/-- C9 witness: the properties instantiated at (10,20) and (30,40). -/
theorem haversine_nonneg_symm_self_witness :
    0 ≤ _haversine_km 10 20 30 40 ∧
    |_haversine_km 10 20 30 40 - _haversine_km 30 40 10 20| ≤ 1 / 1000000 ∧
    |_haversine_km 10 20 10 20| ≤ 1 / 1000000 :=
  haversine_nonneg_symm_self 10 20 30 40 (by norm_num) (by norm_num) (by norm_num)
    (by norm_num) (by norm_num) (by norm_num) (by norm_num) (by norm_num)

set_option maxHeartbeats 6000000 in
/-- C7: for every input the tips list and the recipes list contain no
duplicates (each append is guarded by a membership test), and the spec's
banana example returns the freeze-banana tip exactly once together with
exactly the three banana recipes. -/
theorem tipid_suggestions_nodup_and_banana :
    (∀ (t : String) (d c : Option String),
      (_generate_tipid_suggestions t d c).tips.Nodup ∧
      (_generate_tipid_suggestions t d c).recipes.Nodup) ∧
    _generate_tipid_suggestions "Overripe bananas" Option.none Option.none =
      { tips := ["Freeze overripe bananas for smoothies or baking."],
        recipes := ["Banana Bread na Pang-tipid", "Smoothie: saging + gatas + yelo",
                    "Maruya / Banana Fritters"] } := by
  constructor
  · intro t d c
    simp only [_generate_tipid_suggestions]
    split_ifs <;> simp_all <;> decide
  · decide

set_option maxHeartbeats 6000000 in
/-- C8: the engine is a total function, and it returns exactly the single
fallback tip and the single fallback recipe if and only if no keyword rule
fired on the text and the category rule did not fire; in particular an input
with no matching keywords and category "food" yields exactly the fallback
pair. -/
theorem tipid_fallback_iff_no_rule :
    (∀ (t : String) (d c : Option String),
      ((_generate_tipid_suggestions t d c).tips =
          ["Check your fridge first—baka pwedeng i-recipe na! 😄"] ∧
        (_generate_tipid_suggestions t d c).recipes = ["Fried Rice ng Bahay"]) ↔
        ¬(tipidKeywordFired t d ∨ c = Option.some "household")) ∧
    _generate_tipid_suggestions "Old chair" Option.none (Option.some "food") =
      { tips := ["Check your fridge first—baka pwedeng i-recipe na! 😄"],
        recipes := ["Fried Rice ng Bahay"] } := by
  constructor
  · intro t d c
    simp only [_generate_tipid_suggestions, tipidKeywordFired]
    split_ifs <;> simp_all [addUnique] <;> (intros; simp_all)
  · decide

/-- C10: the household rule compares the category with the exact lowercase
string "household"; on an input whose category only differs in case and whose
text fires no keyword rule, the household tips are not added and the fallback
tip and recipe are returned instead. -/
theorem household_rule_case_sensitive (t : String) (d c : Option String)
    (hk : ¬ tipidKeywordFired t d)
    (_hlow : c.map pyLower = Option.some "household")
    (hne : c ≠ Option.some "household") :
    _generate_tipid_suggestions t d c =
      { tips := ["Check your fridge first—baka pwedeng i-recipe na! 😄"],
        recipes := ["Fried Rice ng Bahay"] } := by
  simp only [tipidKeywordFired, not_or, Bool.not_eq_true] at hk
  obtain ⟨h1, h2, h3, h4, h5, h6, h7, h8, h9⟩ := hk
  simp [_generate_tipid_suggestions, h1, h2, h3, h4, h5, h6, h7, h8, h9, hne, addUnique]

set_option maxHeartbeats 1000000 in
/-- C10 witness: title "Old chair" with category "Household" yields the
fallback pair, not the household tips. -/
theorem household_rule_case_sensitive_witness :
    _generate_tipid_suggestions "Old chair" Option.none (Option.some "Household") =
      { tips := ["Check your fridge first—baka pwedeng i-recipe na! 😄"],
        recipes := ["Fried Rice ng Bahay"] } :=
  household_rule_case_sensitive "Old chair" Option.none (Option.some "Household")
    (by decide) (by decide) (by decide)
